import Mathlib

/-!
Verification development for the SRStateMachine repository
(Source/statemch.cpp, Steve Rabin's hierarchical state machine runtime).

The definitions below are a shallow embedding of the C++ code in
Source/statemch.cpp, in release-build semantics: every ASSERTMSG is a
no-op, so only the explicit `if` guards around it survive.

The class declaration header (statemch.h) is not part of the sources at
hand; enum constructors and constants that live there are reconstructed
from their uses in statemch.cpp and, where noted, modelled from the spec.

Modelling conventions:
  * machine integers: `unsigned int` counters are Nat reduced mod 2^32
    where the code increments them; state/substate ids are Nat/Int
    exactly as in the code (`int` fields hold -1 sentinels).
  * calls into the external message router (g_msgroute.SendMsg) are pure:
    each send API function returns the list of router-call tuples it
    emits, with exactly the arguments the code passes.
  * the user transition function (`States`, supplied by subclasses) may
    read the machine and act on it only through the runtime request API
    (per the spec contract); it is modelled as a function returning a
    `handled` flag plus the list of API calls it performed.
  * float time-stamps (m_timeOnEnterState / m_timeOnEnterSubstate), the
    debug name strings and the CC counter are omitted from the machine
    record: no property below mentions them, and they influence nothing
    that is modelled. Delays are carried as rationals.
-/

namespace SRStateMachine

/-- Event kinds dispatched to the user transition function, as used in
statemch.cpp (EVENT_Probe, EVENT_Enter, EVENT_Exit, EVENT_Update,
EVENT_Message). -/
inductive State_Machine_Event where
  | EVENT_Probe
  | EVENT_Enter
  | EVENT_Exit
  | EVENT_Update
  | EVENT_Message
  deriving DecidableEq, Repr

/-- Pending state-change kind (m_stateChange). -/
inductive State_Change where
  | NO_STATE_CHANGE
  | STATE_CHANGE
  | STATE_POP
  deriving DecidableEq, Repr

/-- Scope rule attached to a routed message. -/
inductive Scope_Rule where
  | SCOPE_TO_SUBSTATE
  | SCOPE_TO_STATE
  | SCOPE_TO_STATE_MACHINE
  deriving DecidableEq, Repr

/-- Scope selector for state variables. -/
inductive StateVariableScope where
  | STATE_VARIABLE_SCOPE
  | SUBSTATE_VARIABLE_SCOPE
  deriving DecidableEq, Repr

/-- One typed variable slot (StateMachinePersistentData). Only the fields
exercised by the claims are carried; a freshly allocated slot is
zero-initialised. -/
structure StateMachinePersistentData where
  intVal : Int := 0
  boolVal : Bool := false
  objectIdVal : Nat := 0
  deriving DecidableEq, Repr

/-- Modelled from the spec: statemch.h (missing from src/) defines the
REGISTERED_EVENT bit constants, one bit per handler kind in
set {Enter, Exit, Update} times set {StateMachine, State, Substate}; the
compound masks REGISTERED_EVENT_UPDATE, REGISTERED_EVENT_STATEMACHINE and
REGISTERED_EVENT_STATE are the unions over the corresponding rows and
columns. The bitmask is modelled as a record of nine booleans. -/
structure RegisteredEvents where
  enterStateMachineBit : Bool := false
  exitStateMachineBit : Bool := false
  updateStateMachineBit : Bool := false
  enterStateBit : Bool := false
  exitStateBit : Bool := false
  updateStateBit : Bool := false
  enterSubstateBit : Bool := false
  exitSubstateBit : Bool := false
  updateSubstateBit : Bool := false
  deriving DecidableEq, Repr

namespace RegisteredEvents

/-- Bitwise or of two masks. -/
def orBits (a b : RegisteredEvents) : RegisteredEvents where
  enterStateMachineBit := a.enterStateMachineBit || b.enterStateMachineBit
  exitStateMachineBit := a.exitStateMachineBit || b.exitStateMachineBit
  updateStateMachineBit := a.updateStateMachineBit || b.updateStateMachineBit
  enterStateBit := a.enterStateBit || b.enterStateBit
  exitStateBit := a.exitStateBit || b.exitStateBit
  updateStateBit := a.updateStateBit || b.updateStateBit
  enterSubstateBit := a.enterSubstateBit || b.enterSubstateBit
  exitSubstateBit := a.exitSubstateBit || b.exitSubstateBit
  updateSubstateBit := a.updateSubstateBit || b.updateSubstateBit

/-- Mask r with REGISTERED_EVENT_STATEMACHINE: keep only the state-machine
scope bits. -/
def maskStateMachineBits (r : RegisteredEvents) : RegisteredEvents where
  enterStateMachineBit := r.enterStateMachineBit
  exitStateMachineBit := r.exitStateMachineBit
  updateStateMachineBit := r.updateStateMachineBit

/-- Mask r with REGISTERED_EVENT_STATE bitor REGISTERED_EVENT_STATEMACHINE:
keep state and state-machine scope bits, clear substate bits. -/
def maskStateAndStateMachineBits (r : RegisteredEvents) : RegisteredEvents where
  enterStateMachineBit := r.enterStateMachineBit
  exitStateMachineBit := r.exitStateMachineBit
  updateStateMachineBit := r.updateStateMachineBit
  enterStateBit := r.enterStateBit
  exitStateBit := r.exitStateBit
  updateStateBit := r.updateStateBit

/-- Test of m_registeredEvents bitand REGISTERED_EVENT_UPDATE: true iff any
update handler bit is set. -/
def anyUpdateBit (r : RegisteredEvents) : Bool :=
  r.updateSubstateBit || r.updateStateBit || r.updateStateMachineBit

end RegisteredEvents

/-- Stack cap from statemch.cpp: MAX_STATE_STACK_SIZE. -/
def MAX_STATE_STACK_SIZE : Nat := 10

/-- Modulus of the C++ unsigned int counters. -/
def U32 : Nat := 2 ^ 32

/-- The StateMachine object state (the statemch.h data members that the
modelled code reads or writes). Defaults coincide with
StateMachine::Initialize so that an anonymous record literal denotes a
freshly initialised machine. The state stack is a deque whose head is the
oldest entry. -/
structure SM where
  ownerId : Nat := 0
  queue : Nat := 0
  scopeState : Nat := 0
  scopeSubstate : Nat := 0
  currentState : Nat := 0
  updateIteration : Nat := 0
  currentSubstate : Int := -1
  stateChange : State_Change := State_Change.NO_STATE_CHANGE
  nextState : Nat := 0
  nextSubstate : Int := 0
  delayedStateChangeQueued : Bool := false
  delayedSubstateChangeQueued : Bool := false
  stateChangeAllowed : Bool := true
  registeredEvents : RegisteredEvents := {}
  broadcastList : List Nat := []
  stack : List Nat := []
  stateVariables : List StateMachinePersistentData := []
  substateVariables : List StateMachinePersistentData := []
  deriving DecidableEq, Repr

/-- StateMachine::Initialize - reset every member to its starting value
(owner and queue are constructor state and survive). -/
def initMachine (m : SM) : SM where
  ownerId := m.ownerId
  queue := m.queue

/-- StateMachine::ChangeState (release semantics: the two ASSERTMSG are
no-ops, only the stateChangeAllowed guard remains). -/
def changeState (newState : Nat) (m : SM) : SM :=
  if m.stateChangeAllowed then
    { m with stateChange := State_Change.STATE_CHANGE,
             nextState := newState,
             nextSubstate := -1 }
  else m

/-- StateMachine::ChangeSubstate (release semantics). -/
def changeSubstate (newSubstate : Nat) (m : SM) : SM :=
  if m.stateChangeAllowed then
    { m with stateChange := State_Change.STATE_CHANGE,
             nextState := m.currentState,
             nextSubstate := (newSubstate : Int) }
  else m

/-- StateMachine::PopState (release semantics). -/
def popState (m : SM) : SM :=
  if m.stateChangeAllowed then
    { m with stateChange := State_Change.STATE_POP }
  else m

/-- Freshly allocated StateMachinePersistentData. -/
def newPersistentData : StateMachinePersistentData := {}

/-- StateMachine::DeclareVariable: when the chosen scope's slot vector does
not yet reach the id, push back exactly one fresh slot. -/
def declareVariable (id : Int) (scope : StateVariableScope) (m : SM) : SM :=
  if scope = StateVariableScope.STATE_VARIABLE_SCOPE ∧
      ((m.stateVariables.length : Int) ≤ id) then
    { m with stateVariables := m.stateVariables ++ [newPersistentData] }
  else if scope = StateVariableScope.SUBSTATE_VARIABLE_SCOPE ∧
      ((m.substateVariables.length : Int) ≤ id) then
    { m with substateVariables := m.substateVariables ++ [newPersistentData] }
  else m

/-- The slot vector of a scope (m_stateVariables / m_substateVariables). -/
def varsOf (scope : StateVariableScope) (m : SM) :
    List StateMachinePersistentData :=
  match scope with
  | StateVariableScope.STATE_VARIABLE_SCOPE => m.stateVariables
  | StateVariableScope.SUBSTATE_VARIABLE_SCOPE => m.substateVariables

/-- StateMachine::SetStateVariableInt. The C++ indexes the vector without a
release-mode guard (the range ASSERTMSG is debug only), so an out-of-range
id is undefined behavior; the embedding makes that case `none`. -/
def setStateVariableInt (value : Int) (id : Int) (scope : StateVariableScope)
    (m : SM) : Option SM :=
  match scope with
  | StateVariableScope.STATE_VARIABLE_SCOPE =>
    if 0 ≤ id ∧ id < (m.stateVariables.length : Int) then
      let slot := m.stateVariables.getD id.toNat newPersistentData
      let slot2 := { slot with intVal := value }
      some { m with stateVariables := m.stateVariables.set id.toNat slot2 }
    else none
  | StateVariableScope.SUBSTATE_VARIABLE_SCOPE =>
    if 0 ≤ id ∧ id < (m.substateVariables.length : Int) then
      let slot := m.substateVariables.getD id.toNat newPersistentData
      let slot2 := { slot with intVal := value }
      some { m with substateVariables := m.substateVariables.set id.toNat slot2 }
    else none

/-- Modelled from the spec: the user transition function acts on the
machine only through the runtime request API (statemch.h and the
BeginStateMachine macro family are not in src/). These are the
machine-mutating verbs a handler body may invoke; the Probe protocol
reports handler presence by or-ing bits into registered_events. Send and
broadcast verbs go to the external router and do not touch the machine, so
they are modelled by the standalone send functions further below. -/
inductive ApiCall where
  | changeStateCall (newState : Nat)
  | changeSubstateCall (newSubstate : Nat)
  | popStateCall
  | registerEventsCall (bits : RegisteredEvents)
  | declareVariableCall (id : Int) (scope : StateVariableScope)
  deriving DecidableEq, Repr

/-- Effect of one handler-issued API call on the machine. -/
def applyCall (c : ApiCall) (m : SM) : SM :=
  match c with
  | ApiCall.changeStateCall n => changeState n m
  | ApiCall.changeSubstateCall n => changeSubstate n m
  | ApiCall.popStateCall => popState m
  | ApiCall.registerEventsCall bits =>
      { m with registeredEvents := m.registeredEvents.orBits bits }
  | ApiCall.declareVariableCall id scope => declareVariable id scope m

/-- Effect of a handler body: its API calls applied in order. -/
def applyCalls (cs : List ApiCall) (m : SM) : SM :=
  cs.foldl (fun m c => applyCall c m) m

/-- The user transition function `States(event, msg, state, substate)`:
given the event, the queried (state, substate) pair and the machine it may
read, it yields the handled flag and the API calls its body performs.
(The MSG_Object payload is irrelevant to every modelled property and is
elided.) -/
def TransFn : Type :=
  State_Machine_Event → Int → Int → SM → Bool × List ApiCall

/-- One record in the dispatch trace: a single invocation of the user
transition function with its arguments and its handled result. -/
structure TraceEntry where
  event : State_Machine_Event
  queryState : Int
  querySubstate : Int
  handled : Bool
  deriving DecidableEq, Repr

/-- A single `States(event, 0, qs, qss)` call site: run the transition
function, apply its API calls, record the invocation. -/
def statesCall (trans : TransFn) (ev : State_Machine_Event) (qs qss : Int)
    (m : SM) : SM × Bool × List TraceEntry :=
  let r := trans ev qs qss m
  (applyCalls r.2 m, r.1, [⟨ev, qs, qss, r.1⟩])

/-- The event-dispatch block of StateMachine::Process (statemch.cpp lines
146-159): substate level first when a substate is active, then state
level, then global, each tried only while not yet handled. -/
def processDispatch (trans : TransFn) (ev : State_Machine_Event) (m : SM) :
    SM × Bool × List TraceEntry :=
  let r1 :=
    if 0 ≤ m.currentSubstate then
      statesCall trans ev (m.currentState : Int) m.currentSubstate m
    else (m, false, [])
  let r2 :=
    if r1.2.1 then r1
    else
      let s := statesCall trans ev (r1.1.currentState : Int) (-1) r1.1
      (s.1, s.2.1, r1.2.2 ++ s.2.2)
  if r2.2.1 then r2
  else
    let s := statesCall trans ev (-1) (-1) r2.1
    (s.1, s.2.1, r2.2.2 ++ s.2.2)

/-- Step 1 of a PerformStateChanges iteration (statemch.cpp lines
185-188): lock out change requests, clear the delayed flags and the
update iteration counter. -/
def pscLock (m : SM) : SM :=
  { m with stateChangeAllowed := false,
           delayedStateChangeQueued := false,
           delayedSubstateChangeQueued := false,
           updateIteration := 0 }

/-- Step 2 (statemch.cpp lines 190-198): let the departing substate and,
when next_substate marks a state-level change, the departing state clean
up via Exit events, each gated by its registered bit. -/
def pscExitDispatch (trans : TransFn) (m1 : SM) : SM × List TraceEntry :=
  let r2 :=
    if 0 ≤ m1.currentSubstate ∧ m1.registeredEvents.exitSubstateBit then
      let s := statesCall trans State_Machine_Event.EVENT_Exit
        (m1.currentState : Int) m1.currentSubstate m1
      (s.1, s.2.2)
    else (m1, [])
  let m2 := r2.1
  let r3 :=
    if m2.nextSubstate < 0 ∧ m2.registeredEvents.exitStateBit then
      let s := statesCall trans State_Machine_Event.EVENT_Exit
        (m2.currentState : Int) (-1) m2
      (s.1, s.2.2)
    else (m2, [])
  (r3.1, r2.2 ++ r3.2)

/-- Step 3, the switch on m_stateChange (statemch.cpp lines 201-239):
a state-level STATE_CHANGE pushes the old state and evicts the deque
front beyond MAX_STATE_STACK_SIZE, then the new state and substate are
installed; STATE_POP restores the stack top when the stack is non-empty
and otherwise does nothing (the underflow ASSERTMSG is debug only). -/
def pscSwitch (m3 : SM) : SM :=
  match m3.stateChange with
  | State_Change.STATE_CHANGE =>
    let ma :=
      if m3.nextSubstate < 0 then
        let st := m3.stack ++ [m3.currentState]
        { m3 with stack :=
            if MAX_STATE_STACK_SIZE < st.length then st.tail else st }
      else m3
    { ma with currentState := ma.nextState, currentSubstate := ma.nextSubstate }
  | State_Change.STATE_POP =>
    match m3.stack.getLast? with
    | some top => { m3 with currentState := top,
                            currentSubstate := -1,
                            stack := m3.stack.dropLast }
    | none => m3
  | State_Change.NO_STATE_CHANGE => m3

/-- Steps 4-7 (statemch.cpp lines 241-270): bump scope_substate and, when
next_substate marks a state-level change, scope_state; wipe the substate
variables and, on a state-level change, the state variables; reset the
pending change, re-allow requests, and mask registered_events down to the
scopes that survive the change. -/
def pscScopeAndWipe (m4 : SM) : SM :=
  let m5 := { m4 with
    scopeSubstate := (m4.scopeSubstate + 1) % U32,
    scopeState :=
      if m4.nextSubstate < 0 then (m4.scopeState + 1) % U32 else m4.scopeState }
  let m6 := { m5 with
    substateVariables := [],
    stateVariables := if m5.nextSubstate < 0 then [] else m5.stateVariables }
  let m7 := { m6 with stateChange := State_Change.NO_STATE_CHANGE,
                      stateChangeAllowed := true }
  { m7 with registeredEvents :=
    if m7.nextSubstate < 0 then m7.registeredEvents.maskStateMachineBits
    else m7.registeredEvents.maskStateAndStateMachineBits }

/-- Steps 8-9 (statemch.cpp lines 272-286): Probe the new
(state, substate), then dispatch Enter when the matching bit (populated
by the Probe) is on; the state-or-substate branch reads next_substate as
it stands after the Probe, which a Probe handler may have overwritten. -/
def pscProbeEnter (trans : TransFn) (m8 : SM) : SM × List TraceEntry :=
  let rp := statesCall trans State_Machine_Event.EVENT_Probe
    (m8.currentState : Int) m8.currentSubstate m8
  let m9 := rp.1
  let re :=
    if m9.nextSubstate < 0 then
      if m9.registeredEvents.enterStateBit then
        let s := statesCall trans State_Machine_Event.EVENT_Enter
          (m9.currentState : Int) m9.currentSubstate m9
        (s.1, s.2.2)
      else (m9, [])
    else
      if m9.registeredEvents.enterSubstateBit then
        let s := statesCall trans State_Machine_Event.EVENT_Enter
          (m9.currentState : Int) m9.currentSubstate m9
        (s.1, s.2.2)
      else (m9, [])
  (re.1, rp.2.2 ++ re.2)

/-- One iteration of the while loop in StateMachine::PerformStateChanges
(statemch.cpp lines 181-287), as the composition of its statement blocks
pscLock, pscExitDispatch, pscSwitch, pscScopeAndWipe and pscProbeEnter. -/
def performOneStateChange (trans : TransFn) (m0 : SM) : SM × List TraceEntry :=
  let rexit := pscExitDispatch trans (pscLock m0)
  let rpe := pscProbeEnter trans (pscScopeAndWipe (pscSwitch rexit.1))
  (rpe.1, rexit.2 ++ rpe.2)

/-- The while loop of PerformStateChanges, driven by the remaining safety
count: iterate while a change is pending and fuel remains. -/
def performStateChangesAux (trans : TransFn) :
    Nat → SM → SM × List TraceEntry
  | 0, m => (m, [])
  | Nat.succ fuel, m =>
    if m.stateChange ≠ State_Change.NO_STATE_CHANGE then
      let r := performOneStateChange trans m
      let r2 := performStateChangesAux trans fuel r.1
      (r2.1, r.2 ++ r2.2)
    else (m, [])

/-- StateMachine::PerformStateChanges with its safety count of 20. -/
def performStateChanges (trans : TransFn) (m : SM) : SM × List TraceEntry :=
  performStateChangesAux trans 20 m

/-- StateMachine::Process: nothing happens when the owner is marked for
deletion; otherwise the event walks the dispatch ladder and
PerformStateChanges runs. (The CC branch only forwards a copy of a
message to the router - see sendCCMsg below - and does not touch the
machine.) -/
def process (trans : TransFn) (ev : State_Machine_Event)
    (markedForDeletion : Bool) (m : SM) : SM × List TraceEntry :=
  if markedForDeletion then (m, [])
  else
    let d := processDispatch trans ev m
    let p := performStateChanges trans d.1
    (p.1, d.2.2 ++ p.2)

/-- The Update dispatch ladder (statemch.cpp lines 105-117): Update is
sent to the substate, state and global levels in turn, each level gated
by its own registered-update bit and tried only while not yet handled. -/
def updateDispatch (trans : TransFn) (m0 : SM) : SM × Bool × List TraceEntry :=
  let r1 :=
    if 0 ≤ m0.currentSubstate ∧ m0.registeredEvents.updateSubstateBit then
      statesCall trans State_Machine_Event.EVENT_Update
        (m0.currentState : Int) m0.currentSubstate m0
    else (m0, false, [])
  let r2 :=
    if ¬r1.2.1 ∧ r1.1.registeredEvents.updateStateBit then
      let s := statesCall trans State_Machine_Event.EVENT_Update
        (r1.1.currentState : Int) (-1) r1.1
      (s.1, s.2.1, r1.2.2 ++ s.2.2)
    else r1
  if ¬r2.2.1 ∧ r2.1.registeredEvents.updateStateMachineBit then
    let s := statesCall trans State_Machine_Event.EVENT_Update (-1) (-1) r2.1
    (s.1, s.2.1, r2.2.2 ++ s.2.2)
  else r2

/-- StateMachine::Update (statemch.cpp lines 99-121): everything, the
final PerformStateChanges included, sits inside the guard that requires
some registered Update bit and an owner not marked for deletion; inside,
the iteration counter is bumped, the Update event walks the gated ladder
and PerformStateChanges runs. -/
def update (trans : TransFn) (markedForDeletion : Bool) (m : SM) :
    SM × List TraceEntry :=
  if m.registeredEvents.anyUpdateBit ∧ ¬markedForDeletion then
    let r3 := updateDispatch trans
      { m with updateIteration := (m.updateIteration + 1) % U32 }
    let p := performStateChanges trans r3.1
    (p.1, r3.2.2 ++ p.2)
  else (m, [])

/-- StateMachine::Reset: reinitialize, then give the machine its very
first Probe and Enter events. -/
def resetMachine (trans : TransFn) (markedForDeletion : Bool) (m : SM) :
    SM × List TraceEntry :=
  let m0 := initMachine m
  let p1 := process trans State_Machine_Event.EVENT_Probe markedForDeletion m0
  let p2 := process trans State_Machine_Event.EVENT_Enter markedForDeletion p1.1
  (p2.1, p1.2 ++ p2.2)

/-- Modelled from the spec: NUM_QUEUES = 3 (STATE_MACHINE_NUM_QUEUES lives
in the missing header). -/
def STATE_MACHINE_NUM_QUEUES : Nat := 3

/-- Modelled from the spec: the all-queues sentinel, any value beyond the
real queue indices. -/
def STATE_MACHINE_QUEUE_ALL : Nat := STATE_MACHINE_NUM_QUEUES

/-- Modelled from the spec: ONE_FRAME is the positive minimum delay that
means next tick; its numeric value lives in the missing header and no
modelled property depends on it, only on its positivity. -/
def ONE_FRAME : ℚ := 1 / 10

/-- One call of g_msgroute.SendMsg, with the argument tuple the state
machine code passes: (delay, name, receiver, sender, rule, scope, queue,
data, timer, cc). The only payload any modelled call site constructs is
the timer delay, carried in dataDelay. -/
structure RouterCall where
  delay : ℚ
  name : Nat
  receiver : Nat
  sender : Nat
  rule : Scope_Rule
  scope : Nat
  queue : Nat
  dataDelay : ℚ
  timer : Bool
  cc : Bool
  deriving DecidableEq, Repr

/-- StateMachine::SendMsgDelayedToMeHelper: a self-addressed send whose
captured scope value is scope_substate under the substate rule,
scope_state under the state rule and 0 otherwise. -/
def sendMsgDelayedToMeHelper (delay : ℚ) (name : Nat) (rule : Scope_Rule)
    (queue : Nat) (dataDelay : ℚ) (timer : Bool) (m : SM) : List RouterCall :=
  let scope : Nat :=
    if rule = Scope_Rule.SCOPE_TO_SUBSTATE then m.scopeSubstate
    else if rule = Scope_Rule.SCOPE_TO_STATE then m.scopeState
    else 0
  [⟨delay, name, m.ownerId, m.ownerId, rule, scope, queue, dataDelay, timer, false⟩]

/-- StateMachine::SetTimerSubstate: clamp the delay to ONE_FRAME, pass the
delay as payload, send to self as a timer under the substate rule. -/
def setTimerSubstate (delay : ℚ) (name : Nat) (m : SM) : List RouterCall :=
  let d := if delay < ONE_FRAME then ONE_FRAME else delay
  sendMsgDelayedToMeHelper d name Scope_Rule.SCOPE_TO_SUBSTATE m.queue d true m

/-- StateMachine::SetTimerState as written in statemch.cpp lines 889-899:
its body is identical to SetTimerSubstate, so the rule it passes is
SCOPE_TO_SUBSTATE. -/
def setTimerState (delay : ℚ) (name : Nat) (m : SM) : List RouterCall :=
  let d := if delay < ONE_FRAME then ONE_FRAME else delay
  sendMsgDelayedToMeHelper d name Scope_Rule.SCOPE_TO_SUBSTATE m.queue d true m

/-- StateMachine::SetTimerStateMachine. -/
def setTimerStateMachine (delay : ℚ) (name : Nat) (m : SM) : List RouterCall :=
  let d := if delay < ONE_FRAME then ONE_FRAME else delay
  sendMsgDelayedToMeHelper d name Scope_Rule.SCOPE_TO_STATE_MACHINE m.queue d true m

/-- StateMachine::SendCCMsg: an immediate unscoped send with the cc flag
on. -/
def sendCCMsg (name : Nat) (receiver : Nat) (dataDelay : ℚ) (m : SM) :
    List RouterCall :=
  [⟨0, name, receiver, m.ownerId, Scope_Rule.SCOPE_TO_STATE_MACHINE, 0,
    STATE_MACHINE_QUEUE_ALL, dataDelay, false, true⟩]

/-- StateMachine::SendMsgBroadcastToList: one next-tick send per broadcast
list entry that is not the owner itself (the empty-list ASSERTMSG is
debug only). -/
def sendMsgBroadcastToList (name : Nat) (dataDelay : ℚ) (m : SM) :
    List RouterCall :=
  m.broadcastList.filterMap fun id =>
    if id ≠ m.ownerId then
      some ⟨ONE_FRAME, name, id, m.ownerId, Scope_Rule.SCOPE_TO_STATE_MACHINE,
            0, STATE_MACHINE_QUEUE_ALL, dataDelay, false, false⟩
    else none

/-- StateMachine::SendMsgBroadcastToListNow: the immediate variant. -/
def sendMsgBroadcastToListNow (name : Nat) (dataDelay : ℚ) (m : SM) :
    List RouterCall :=
  m.broadcastList.filterMap fun id =>
    if id ≠ m.ownerId then
      some ⟨0, name, id, m.ownerId, Scope_Rule.SCOPE_TO_STATE_MACHINE,
            0, STATE_MACHINE_QUEUE_ALL, dataDelay, false, false⟩
    else none

/-- Machine-level change request kinds handled by the manager. -/
inductive StateMachineChange where
  | NO_STATE_MACHINE_CHANGE
  | STATE_MACHINE_RESET
  | STATE_MACHINE_REPLACE
  | STATE_MACHINE_QUEUE
  | STATE_MACHINE_REQUEUE
  | STATE_MACHINE_PUSH
  | STATE_MACHINE_POP
  deriving DecidableEq, Repr

/-- The StateMachineManager request slots: per queue, the pending change
kind and the pending new-machine pointer (modelled as a Nat id, 0 for the
null pointer). -/
structure StateMachineManager where
  stateMachineChange :
    Fin STATE_MACHINE_NUM_QUEUES → StateMachineChange :=
      fun _ => StateMachineChange.NO_STATE_MACHINE_CHANGE
  newStateMachine : Fin STATE_MACHINE_NUM_QUEUES → Nat := fun _ => 0

/-- StateMachineManager::RequestStateMachineChange (release semantics: the
already-requested ASSERTMSG is a no-op, the slots are written
unconditionally). -/
def requestStateMachineChange (mch : Nat) (change : StateMachineChange)
    (q : Fin STATE_MACHINE_NUM_QUEUES) (mgr : StateMachineManager) :
    StateMachineManager where
  stateMachineChange := Function.update mgr.stateMachineChange q change
  newStateMachine := Function.update mgr.newStateMachine q mch

/-- The trivial user transition function: handles nothing and performs no
API calls (used to instantiate theorems at concrete inputs). -/
def transNone : TransFn := fun _ _ _ _ => (false, [])

/-- Machine configurations reachable through the modelled runtime
operations, starting from any freshly initialised machine. -/
inductive Reachable : SM → Prop where
  | initR (m : SM) : Reachable (initMachine m)
  | apiR {m : SM} (c : ApiCall) : Reachable m → Reachable (applyCall c m)
  | setVarR {m m2 : SM} (v id : Int) (sc : StateVariableScope) :
      Reachable m → setStateVariableInt v id sc m = some m2 → Reachable m2
  | processR {m : SM} (trans : TransFn) (ev : State_Machine_Event)
      (marked : Bool) : Reachable m → Reachable (process trans ev marked m).1
  | updateR {m : SM} (trans : TransFn) (marked : Bool) :
      Reachable m → Reachable (update trans marked m).1
  | performR {m : SM} (trans : TransFn) :
      Reachable m → Reachable (performStateChanges trans m).1
  | resetR {m : SM} (trans : TransFn) (marked : Bool) :
      Reachable m → Reachable (resetMachine trans marked m).1

/-- A handler-issued API call never touches the state stack. -/
theorem applyCall_stack (c : ApiCall) (m : SM) :
    (applyCall c m).stack = m.stack := by
  cases c <;>
    simp only [applyCall, changeState, changeSubstate, popState,
      declareVariable] <;>
    (repeat' split) <;> rfl

/-- A handler-issued API call never touches current_state. -/
theorem applyCall_currentState (c : ApiCall) (m : SM) :
    (applyCall c m).currentState = m.currentState := by
  cases c <;>
    simp only [applyCall, changeState, changeSubstate, popState,
      declareVariable] <;>
    (repeat' split) <;> rfl

/-- A handler-issued API call never touches current_substate. -/
theorem applyCall_currentSubstate (c : ApiCall) (m : SM) :
    (applyCall c m).currentSubstate = m.currentSubstate := by
  cases c <;>
    simp only [applyCall, changeState, changeSubstate, popState,
      declareVariable] <;>
    (repeat' split) <;> rfl

/-- A handler-issued API call never touches scope_state. -/
theorem applyCall_scopeState (c : ApiCall) (m : SM) :
    (applyCall c m).scopeState = m.scopeState := by
  cases c <;>
    simp only [applyCall, changeState, changeSubstate, popState,
      declareVariable] <;>
    (repeat' split) <;> rfl

/-- A handler-issued API call never touches scope_substate. -/
theorem applyCall_scopeSubstate (c : ApiCall) (m : SM) :
    (applyCall c m).scopeSubstate = m.scopeSubstate := by
  cases c <;>
    simp only [applyCall, changeState, changeSubstate, popState,
      declareVariable] <;>
    (repeat' split) <;> rfl

/-- A handler-issued API call never touches the change-allowed flag. -/
theorem applyCall_allowed (c : ApiCall) (m : SM) :
    (applyCall c m).stateChangeAllowed = m.stateChangeAllowed := by
  cases c <;>
    simp only [applyCall, changeState, changeSubstate, popState,
      declareVariable] <;>
    (repeat' split) <;> rfl

/-- While change requests are locked out, a handler-issued API call
leaves the pending request fields alone. -/
theorem applyCall_locked (c : ApiCall) (m : SM)
    (h : m.stateChangeAllowed = false) :
    (applyCall c m).stateChange = m.stateChange ∧
    (applyCall c m).nextState = m.nextState ∧
    (applyCall c m).nextSubstate = m.nextSubstate := by
  cases c <;>
    simp only [applyCall, changeState, changeSubstate, popState,
      declareVariable, h] <;>
    (repeat' split) <;>
    simp_all

/-- No handler-issued API call can clear a pending state change. -/
theorem applyCall_stateChange_ne (c : ApiCall) (m : SM)
    (h : m.stateChange ≠ State_Change.NO_STATE_CHANGE) :
    (applyCall c m).stateChange ≠ State_Change.NO_STATE_CHANGE := by
  cases c <;>
    simp only [applyCall, changeState, changeSubstate, popState,
      declareVariable] <;>
    (repeat' split) <;>
    simp_all

/-- Fold version of a field-preservation fact about single API calls. -/
theorem applyCalls_pres {α : Sort 1} (F : SM → α)
    (hF : ∀ c m, F (applyCall c m) = F m) :
    ∀ (cs : List ApiCall) (m : SM), F (applyCalls cs m) = F m := by
  intro cs
  induction cs with
  | nil => intro m; rfl
  | cons c cs ih =>
    intro m
    have : applyCalls (c :: cs) m = applyCalls cs (applyCall c m) := rfl
    rw [this, ih, hF]

/-- Handler bodies never touch the state stack. -/
theorem applyCalls_stack (cs : List ApiCall) (m : SM) :
    (applyCalls cs m).stack = m.stack :=
  applyCalls_pres (fun m => m.stack) applyCall_stack cs m

/-- Handler bodies never touch current_state. -/
theorem applyCalls_currentState (cs : List ApiCall) (m : SM) :
    (applyCalls cs m).currentState = m.currentState :=
  applyCalls_pres (fun m => m.currentState) applyCall_currentState cs m

/-- Handler bodies never touch current_substate. -/
theorem applyCalls_currentSubstate (cs : List ApiCall) (m : SM) :
    (applyCalls cs m).currentSubstate = m.currentSubstate :=
  applyCalls_pres (fun m => m.currentSubstate) applyCall_currentSubstate cs m

/-- Handler bodies never touch scope_state. -/
theorem applyCalls_scopeState (cs : List ApiCall) (m : SM) :
    (applyCalls cs m).scopeState = m.scopeState :=
  applyCalls_pres (fun m => m.scopeState) applyCall_scopeState cs m

/-- Handler bodies never touch scope_substate. -/
theorem applyCalls_scopeSubstate (cs : List ApiCall) (m : SM) :
    (applyCalls cs m).scopeSubstate = m.scopeSubstate :=
  applyCalls_pres (fun m => m.scopeSubstate) applyCall_scopeSubstate cs m

/-- Handler bodies never touch the change-allowed flag. -/
theorem applyCalls_allowed (cs : List ApiCall) (m : SM) :
    (applyCalls cs m).stateChangeAllowed = m.stateChangeAllowed :=
  applyCalls_pres (fun m => m.stateChangeAllowed) applyCall_allowed cs m

/-- While change requests are locked out, a handler body leaves the
pending request fields alone. -/
theorem applyCalls_locked (cs : List ApiCall) (m : SM)
    (h : m.stateChangeAllowed = false) :
    (applyCalls cs m).stateChange = m.stateChange ∧
    (applyCalls cs m).nextState = m.nextState ∧
    (applyCalls cs m).nextSubstate = m.nextSubstate := by
  induction cs generalizing m with
  | nil => exact ⟨rfl, rfl, rfl⟩
  | cons c cs ih =>
    have hstep : applyCalls (c :: cs) m = applyCalls cs (applyCall c m) := rfl
    have h2 : (applyCall c m).stateChangeAllowed = false := by
      rw [applyCall_allowed]; exact h
    obtain ⟨a1, a2, a3⟩ := applyCall_locked c m h
    obtain ⟨b1, b2, b3⟩ := ih (applyCall c m) h2
    exact ⟨by rw [hstep, b1, a1], by rw [hstep, b2, a2], by rw [hstep, b3, a3]⟩

/-- Handler bodies cannot clear a pending state change. -/
theorem applyCalls_stateChange_ne (cs : List ApiCall) (m : SM)
    (h : m.stateChange ≠ State_Change.NO_STATE_CHANGE) :
    (applyCalls cs m).stateChange ≠ State_Change.NO_STATE_CHANGE := by
  induction cs generalizing m with
  | nil => exact h
  | cons c cs ih =>
    exact ih (applyCall c m) (applyCall_stateChange_ne c m h)

/-- The lock step only touches the lockout flags and the update
iteration counter. -/
theorem pscLock_fields (m : SM) :
    (pscLock m).currentState = m.currentState ∧
    (pscLock m).currentSubstate = m.currentSubstate ∧
    (pscLock m).stack = m.stack ∧
    (pscLock m).scopeState = m.scopeState ∧
    (pscLock m).scopeSubstate = m.scopeSubstate ∧
    (pscLock m).stateChange = m.stateChange ∧
    (pscLock m).nextState = m.nextState ∧
    (pscLock m).nextSubstate = m.nextSubstate ∧
    (pscLock m).stateChangeAllowed = false :=
  ⟨rfl, rfl, rfl, rfl, rfl, rfl, rfl, rfl, rfl⟩

/-- The Exit dispatches leave the position fields, the stack and the
scope counters untouched (handlers act only through the API, which cannot
write them). -/
theorem pscExitDispatch_core (trans : TransFn) (m1 : SM) :
    (pscExitDispatch trans m1).1.currentState = m1.currentState ∧
    (pscExitDispatch trans m1).1.currentSubstate = m1.currentSubstate ∧
    (pscExitDispatch trans m1).1.stack = m1.stack ∧
    (pscExitDispatch trans m1).1.scopeState = m1.scopeState ∧
    (pscExitDispatch trans m1).1.scopeSubstate = m1.scopeSubstate ∧
    (pscExitDispatch trans m1).1.stateChangeAllowed = m1.stateChangeAllowed := by
  unfold pscExitDispatch
  dsimp only
  split <;> split <;>
    simp [statesCall, applyCalls_currentState, applyCalls_currentSubstate,
      applyCalls_stack, applyCalls_scopeState, applyCalls_scopeSubstate,
      applyCalls_allowed]

/-- With requests locked out, the Exit dispatches also leave the pending
request fields untouched. -/
theorem pscExitDispatch_locked (trans : TransFn) (m1 : SM)
    (h : m1.stateChangeAllowed = false) :
    (pscExitDispatch trans m1).1.stateChange = m1.stateChange ∧
    (pscExitDispatch trans m1).1.nextState = m1.nextState ∧
    (pscExitDispatch trans m1).1.nextSubstate = m1.nextSubstate := by
  unfold pscExitDispatch
  dsimp only
  split <;> split <;>
    simp_all [statesCall, applyCalls_locked, applyCalls_allowed,
      (applyCalls_locked _ _ h).1, (applyCalls_locked _ _ h).2.1,
      (applyCalls_locked _ _ h).2.2]

/-- The switch never touches the scope counters or the pending-target
fields. -/
theorem pscSwitch_fields (m : SM) :
    (pscSwitch m).scopeState = m.scopeState ∧
    (pscSwitch m).scopeSubstate = m.scopeSubstate ∧
    (pscSwitch m).nextState = m.nextState ∧
    (pscSwitch m).nextSubstate = m.nextSubstate ∧
    (pscSwitch m).stateChangeAllowed = m.stateChangeAllowed ∧
    (pscSwitch m).stateVariables = m.stateVariables ∧
    (pscSwitch m).substateVariables = m.substateVariables := by
  unfold pscSwitch
  cases h : m.stateChange <;> dsimp only
  case NO_STATE_CHANGE => exact ⟨rfl, rfl, rfl, rfl, rfl, rfl, rfl⟩
  case STATE_CHANGE => split <;> exact ⟨rfl, rfl, rfl, rfl, rfl, rfl, rfl⟩
  case STATE_POP =>
    cases m.stack.getLast? <;> exact ⟨rfl, rfl, rfl, rfl, rfl, rfl, rfl⟩

/-- A pop against the empty stack leaves the machine alone. -/
theorem pscSwitch_pop_empty (m : SM)
    (hc : m.stateChange = State_Change.STATE_POP) (hs : m.stack = []) :
    pscSwitch m = m := by
  unfold pscSwitch
  rw [hc, hs]
  rfl

/-- A pop against a non-empty stack restores its last entry as the
current state, clears the substate and shrinks the stack. -/
theorem pscSwitch_pop_some (m : SM) (top : Nat)
    (hc : m.stateChange = State_Change.STATE_POP)
    (hs : m.stack.getLast? = some top) :
    pscSwitch m = { m with currentState := top,
                           currentSubstate := -1,
                           stack := m.stack.dropLast } := by
  unfold pscSwitch
  rw [hc, hs]

/-- The scope-and-wipe step spelled out field by field. -/
theorem pscScopeAndWipe_fields (m : SM) :
    (pscScopeAndWipe m).currentState = m.currentState ∧
    (pscScopeAndWipe m).currentSubstate = m.currentSubstate ∧
    (pscScopeAndWipe m).stack = m.stack ∧
    (pscScopeAndWipe m).scopeSubstate = (m.scopeSubstate + 1) % U32 ∧
    (pscScopeAndWipe m).scopeState =
      (if m.nextSubstate < 0 then (m.scopeState + 1) % U32 else m.scopeState) ∧
    (pscScopeAndWipe m).nextState = m.nextState ∧
    (pscScopeAndWipe m).nextSubstate = m.nextSubstate ∧
    (pscScopeAndWipe m).substateVariables = [] ∧
    (pscScopeAndWipe m).stateVariables =
      (if m.nextSubstate < 0 then [] else m.stateVariables) ∧
    (pscScopeAndWipe m).stateChange = State_Change.NO_STATE_CHANGE ∧
    (pscScopeAndWipe m).stateChangeAllowed = true :=
  ⟨rfl, rfl, rfl, rfl, rfl, rfl, rfl, rfl, rfl, rfl, rfl⟩

/-- Probe and Enter leave the position fields, the stack and the scope
counters untouched. -/
theorem pscProbeEnter_core (trans : TransFn) (m8 : SM) :
    (pscProbeEnter trans m8).1.currentState = m8.currentState ∧
    (pscProbeEnter trans m8).1.currentSubstate = m8.currentSubstate ∧
    (pscProbeEnter trans m8).1.stack = m8.stack ∧
    (pscProbeEnter trans m8).1.scopeState = m8.scopeState ∧
    (pscProbeEnter trans m8).1.scopeSubstate = m8.scopeSubstate := by
  unfold pscProbeEnter
  dsimp only
  split <;> split <;>
    simp [statesCall, applyCalls_currentState, applyCalls_currentSubstate,
      applyCalls_stack, applyCalls_scopeState, applyCalls_scopeSubstate]

/-- The Probe-and-Enter trace opens with the Probe invocation at the
machine's current (state, substate). -/
theorem pscProbeEnter_trace (trans : TransFn) (m8 : SM) :
    ∃ b rest, (pscProbeEnter trans m8).2 =
      TraceEntry.mk State_Machine_Event.EVENT_Probe (m8.currentState : Int)
        m8.currentSubstate b :: rest := by
  unfold pscProbeEnter
  dsimp only [statesCall]
  split <;> split <;> exact ⟨_, _, rfl⟩

/-- The switch preserves the stack-size bound: a state-level push evicts
the front as soon as the deque would exceed MAX_STATE_STACK_SIZE. -/
theorem pscSwitch_stack_le (m : SM) (h : m.stack.length ≤ MAX_STATE_STACK_SIZE) :
    (pscSwitch m).stack.length ≤ MAX_STATE_STACK_SIZE := by
  unfold pscSwitch
  cases hc : m.stateChange <;> dsimp only
  case NO_STATE_CHANGE => exact h
  case STATE_CHANGE =>
    split
    case isTrue hn =>
      dsimp only
      split
      case isTrue hlen =>
        simp only [List.length_tail, List.length_append, List.length_cons,
          List.length_nil] at *
        omega
      case isFalse hlen =>
        simp only [List.length_append, List.length_cons, List.length_nil] at *
        omega
    case isFalse hn => exact h
  case STATE_POP =>
    cases hl : m.stack.getLast? <;> dsimp only
    · exact h
    · simp only [List.length_dropLast]
      omega

/-- The full effect of the switch on a state-level change request. -/
theorem pscSwitch_change (m : SM)
    (hc : m.stateChange = State_Change.STATE_CHANGE) :
    (pscSwitch m).currentState = m.nextState ∧
    (pscSwitch m).currentSubstate = m.nextSubstate ∧
    (pscSwitch m).stack =
      (if m.nextSubstate < 0 then
        (if MAX_STATE_STACK_SIZE < (m.stack ++ [m.currentState]).length then
          (m.stack ++ [m.currentState]).tail
        else m.stack ++ [m.currentState])
      else m.stack) := by
  unfold pscSwitch
  rw [hc]
  dsimp only
  split <;> simp

/-- A PerformStateChanges iteration always invokes the transition
function with EVENT_Probe at the machine position reached by the applied
change. -/
theorem performOneStateChange_probe (trans : TransFn) (m : SM) :
    ∃ qs qss b,
      TraceEntry.mk State_Machine_Event.EVENT_Probe qs qss b ∈
        (performOneStateChange trans m).2 := by
  obtain ⟨b, rest, hb⟩ :=
    pscProbeEnter_trace trans
      (pscScopeAndWipe (pscSwitch (pscExitDispatch trans (pscLock m)).1))
  have hmem : TraceEntry.mk State_Machine_Event.EVENT_Probe
      ((pscScopeAndWipe
        (pscSwitch (pscExitDispatch trans (pscLock m)).1)).currentState : Int)
      (pscScopeAndWipe
        (pscSwitch (pscExitDispatch trans (pscLock m)).1)).currentSubstate b ∈
      (performOneStateChange trans m).2 := by
    show _ ∈ (pscExitDispatch trans (pscLock m)).2 ++
      (pscProbeEnter trans
        (pscScopeAndWipe (pscSwitch (pscExitDispatch trans (pscLock m)).1))).2
    rw [hb]
    exact List.mem_append_right _ (List.mem_cons_self _ _)
  exact ⟨_, _, b, hmem⟩

/-- A PerformStateChanges iteration keeps the stack within the cap. -/
theorem performOneStateChange_stack_le (trans : TransFn) (m : SM)
    (h : m.stack.length ≤ MAX_STATE_STACK_SIZE) :
    (performOneStateChange trans m).1.stack.length ≤ MAX_STATE_STACK_SIZE := by
  have hL := pscLock_fields m
  have hE := pscExitDispatch_core trans (pscLock m)
  have hSW := pscSwitch_stack_le (pscExitDispatch trans (pscLock m)).1
    (by rw [hE.2.2.1, hL.2.2.1]; exact h)
  have hW := pscScopeAndWipe_fields (pscSwitch (pscExitDispatch trans (pscLock m)).1)
  have hP := pscProbeEnter_core trans
    (pscScopeAndWipe (pscSwitch (pscExitDispatch trans (pscLock m)).1))
  show (pscProbeEnter trans
    (pscScopeAndWipe (pscSwitch (pscExitDispatch trans (pscLock m)).1))).1.stack.length ≤
      MAX_STATE_STACK_SIZE
  rw [hP.2.2.1, hW.2.2.1]
  exact hSW

/-- The PerformStateChanges loop keeps the stack within the cap. -/
theorem performStateChangesAux_stack_le (trans : TransFn) (fuel : Nat)
    (m : SM) (h : m.stack.length ≤ MAX_STATE_STACK_SIZE) :
    (performStateChangesAux trans fuel m).1.stack.length ≤
      MAX_STATE_STACK_SIZE := by
  induction fuel generalizing m with
  | zero => exact h
  | succ fuel ih =>
    show (if m.stateChange ≠ State_Change.NO_STATE_CHANGE then _ else _ :
      SM × List TraceEntry).1.stack.length ≤ MAX_STATE_STACK_SIZE
    split
    · exact ih _ (performOneStateChange_stack_le trans m h)
    · exact h

/-- PerformStateChanges keeps the stack within the cap. -/
theorem performStateChanges_stack_le (trans : TransFn) (m : SM)
    (h : m.stack.length ≤ MAX_STATE_STACK_SIZE) :
    (performStateChanges trans m).1.stack.length ≤ MAX_STATE_STACK_SIZE :=
  performStateChangesAux_stack_le trans 20 m h

/-- The event-dispatch ladder never touches the stack. -/
theorem processDispatch_stack (trans : TransFn) (ev : State_Machine_Event)
    (m : SM) : (processDispatch trans ev m).1.stack = m.stack := by
  unfold processDispatch
  dsimp only
  repeat' split
  all_goals simp_all [statesCall, applyCalls_stack]

/-- Setting a variable never touches the stack. -/
theorem setStateVariableInt_stack (v id : Int) (sc : StateVariableScope)
    (m m2 : SM) (h : setStateVariableInt v id sc m = some m2) :
    m2.stack = m.stack := by
  unfold setStateVariableInt at h
  cases sc <;> dsimp only at h <;> split at h
  all_goals try exact Option.noConfusion h
  all_goals injection h with h2
  all_goals rw [← h2]

/-- Process keeps the stack within the cap. -/
theorem process_stack_le (trans : TransFn) (ev : State_Machine_Event)
    (marked : Bool) (m : SM) (h : m.stack.length ≤ MAX_STATE_STACK_SIZE) :
    (process trans ev marked m).1.stack.length ≤ MAX_STATE_STACK_SIZE := by
  unfold process
  dsimp only
  split
  · exact h
  · exact performStateChanges_stack_le _ _
      (by rw [processDispatch_stack]; exact h)

/-- Update keeps the stack within the cap. -/
theorem update_stack_le (trans : TransFn) (marked : Bool) (m : SM)
    (h : m.stack.length ≤ MAX_STATE_STACK_SIZE) :
    (update trans marked m).1.stack.length ≤ MAX_STATE_STACK_SIZE := by
  unfold update updateDispatch
  dsimp only
  split
  · apply performStateChanges_stack_le
    repeat' split
    all_goals simp_all [statesCall, applyCalls_stack]
  · exact h

/-- Reset leaves the stack empty or within the cap. -/
theorem resetMachine_stack_le (trans : TransFn) (marked : Bool) (m : SM) :
    (resetMachine trans marked m).1.stack.length ≤ MAX_STATE_STACK_SIZE := by
  unfold resetMachine
  dsimp only
  apply process_stack_le
  apply process_stack_le
  have hinit : (initMachine m).stack = [] := rfl
  rw [hinit]
  exact Nat.zero_le _

/-- C7: In every reachable machine configuration the state stack holds at
most MAX_STATE_STACK_SIZE = 10 entries - every modelled operation
preserves the bound - and when a state-level change pushes the current
state onto a full stack, the oldest (front) entry is evicted. -/
theorem claimC7_state_stack_bound :
    (∀ m : SM, Reachable m → m.stack.length ≤ MAX_STATE_STACK_SIZE) ∧
    (∀ (trans : TransFn) (m : SM),
      m.stack.length = MAX_STATE_STACK_SIZE →
      m.stateChange = State_Change.STATE_CHANGE →
      m.nextSubstate < 0 →
      (performOneStateChange trans m).1.stack =
        m.stack.tail ++ [m.currentState]) := by
  constructor
  · intro m h
    induction h with
    | initR m2 =>
      have h0 : (initMachine m2).stack = [] := rfl
      rw [h0]; exact Nat.zero_le _
    | apiR c h ih => rw [applyCall_stack]; exact ih
    | setVarR v id sc h heq ih =>
      rw [setStateVariableInt_stack v id sc _ _ heq]; exact ih
    | processR trans ev marked h ih => exact process_stack_le trans ev marked _ ih
    | updateR trans marked h ih => exact update_stack_le trans marked _ ih
    | performR trans h ih => exact performStateChanges_stack_le trans _ ih
    | resetR trans marked h ih => exact resetMachine_stack_le trans marked _
  · intro trans m hlen hc hn
    have hL := pscLock_fields m
    have hE := pscExitDispatch_core trans (pscLock m)
    have hEl := pscExitDispatch_locked trans (pscLock m) hL.2.2.2.2.2.2.2.2
    have hc2 : (pscExitDispatch trans (pscLock m)).1.stateChange =
        State_Change.STATE_CHANGE := by
      rw [hEl.1, hL.2.2.2.2.2.1, hc]
    have hn2 : (pscExitDispatch trans (pscLock m)).1.nextSubstate < 0 := by
      rw [hEl.2.2, hL.2.2.2.2.2.2.2.1]; exact hn
    have hstk : (pscExitDispatch trans (pscLock m)).1.stack = m.stack := by
      rw [hE.2.2.1, hL.2.2.1]
    have hcur : (pscExitDispatch trans (pscLock m)).1.currentState =
        m.currentState := by
      rw [hE.1, hL.1]
    have hsw := pscSwitch_change (pscExitDispatch trans (pscLock m)).1 hc2
    have hswstack : (pscSwitch (pscExitDispatch trans (pscLock m)).1).stack =
        m.stack.tail ++ [m.currentState] := by
      rw [hsw.2.2, if_pos hn2, hstk, hcur]
      have hlen2 : MAX_STATE_STACK_SIZE <
          (m.stack ++ [m.currentState]).length := by
        simp only [List.length_append, List.length_cons, List.length_nil, hlen,
          MAX_STATE_STACK_SIZE]
        omega
      rw [if_pos hlen2]
      cases hms : m.stack with
      | nil =>
        rw [hms] at hlen
        simp [MAX_STATE_STACK_SIZE] at hlen
      | cons a as => simp
    have hW := pscScopeAndWipe_fields
      (pscSwitch (pscExitDispatch trans (pscLock m)).1)
    have hP := pscProbeEnter_core trans
      (pscScopeAndWipe (pscSwitch (pscExitDispatch trans (pscLock m)).1))
    show (pscProbeEnter trans
      (pscScopeAndWipe (pscSwitch (pscExitDispatch trans (pscLock m)).1))).1.stack = _
    rw [hP.2.2.1, hW.2.2.1, hswstack]

/-- Witness for C7: the bound at a freshly initialised machine, and the
eviction equation evaluated on a full ten-entry stack. -/
theorem claimC7_state_stack_bound_witness :
    (initMachine ({} : SM)).stack.length ≤ MAX_STATE_STACK_SIZE ∧
    (performOneStateChange transNone
      ({ stack := [0, 1, 2, 3, 4, 5, 6, 7, 8, 9],
         stateChange := State_Change.STATE_CHANGE,
         nextState := 42, nextSubstate := -1, currentState := 99 } : SM)).1.stack =
      [1, 2, 3, 4, 5, 6, 7, 8, 9, 99] := by
  constructor
  · exact claimC7_state_stack_bound.1 _ (Reachable.initR {})
  · have h := claimC7_state_stack_bound.2 transNone
      ({ stack := [0, 1, 2, 3, 4, 5, 6, 7, 8, 9],
         stateChange := State_Change.STATE_CHANGE,
         nextState := 42, nextSubstate := -1, currentState := 99 } : SM)
      rfl rfl (by decide)
    simpa using h

/-- C1: an event sent through Process first walks the dispatch ladder and
then PerformStateChanges, and the ladder queries the user transition
function at (current_state, current_substate) - skipped when no substate
is active - then (current_state, -1), then (-1, -1), stopping at the
first query that returns handled = true: the recorded invocation trace
can take exactly the five shapes below. -/
theorem claimC1_dispatch_ladder (trans : TransFn) (ev : State_Machine_Event)
    (m : SM) :
    (process trans ev false m).2 =
      (processDispatch trans ev m).2.2 ++
        (performStateChanges trans (processDispatch trans ev m).1).2 ∧
    ((0 ≤ m.currentSubstate ∧
        ((processDispatch trans ev m).2.2 =
          [⟨ev, (m.currentState : Int), m.currentSubstate, true⟩] ∨
         (processDispatch trans ev m).2.2 =
          [⟨ev, (m.currentState : Int), m.currentSubstate, false⟩,
           ⟨ev, (m.currentState : Int), -1, true⟩] ∨
         ∃ b, (processDispatch trans ev m).2.2 =
          [⟨ev, (m.currentState : Int), m.currentSubstate, false⟩,
           ⟨ev, (m.currentState : Int), -1, false⟩,
           ⟨ev, -1, -1, b⟩])) ∨
     (m.currentSubstate < 0 ∧
        ((processDispatch trans ev m).2.2 =
          [⟨ev, (m.currentState : Int), -1, true⟩] ∨
         ∃ b, (processDispatch trans ev m).2.2 =
          [⟨ev, (m.currentState : Int), -1, false⟩,
           ⟨ev, -1, -1, b⟩]))) := by
  refine ⟨rfl, ?_⟩
  by_cases hss : 0 ≤ m.currentSubstate
  · left
    refine ⟨hss, ?_⟩
    simp only [processDispatch, statesCall, hss, if_true, applyCalls_currentState]
    cases hb1 : (trans ev (m.currentState : Int) m.currentSubstate m).1
    · simp only [hb1, Bool.false_eq_true, if_false]
      cases hb2 : (trans ev (m.currentState : Int) (-1)
          (applyCalls (trans ev (m.currentState : Int) m.currentSubstate m).2 m)).1
      · simp [hb1, hb2]
      · simp [hb1, hb2]
    · simp [hb1]
  · right
    refine ⟨lt_of_not_le hss, ?_⟩
    simp only [processDispatch, statesCall, hss, if_false, applyCalls_currentState]
    cases hb2 : (trans ev (m.currentState : Int) (-1) m).1
    · simp [hb2]
    · simp [hb2]

/-- C2 counterexample: a released Pop on the empty stack is not absorbed
silently - with a freshly initialised machine that has a pending
STATE_POP, PerformStateChanges still bumps scope_substate from 0 to 1 and
still invokes the transition function with EVENT_Probe, refuting the
claim that the machine state is unchanged and that no Probe is
dispatched. -/
theorem claimC2_pop_underflow_counterexample :
    ({ stateChange := State_Change.STATE_POP } : SM).scopeSubstate = 0 ∧
    (performStateChanges transNone
      ({ stateChange := State_Change.STATE_POP } : SM)).1.scopeSubstate = 1 ∧
    (performStateChanges transNone
      ({ stateChange := State_Change.STATE_POP } : SM)).2 =
      [⟨State_Machine_Event.EVENT_Probe, 0, -1, false⟩] := by
  refine ⟨rfl, ?_, ?_⟩ <;> decide

/-- C2 as amended: in release, the underflowing pop itself is skipped -
current_state, current_substate and the (empty) stack are unchanged - but
the rest of the iteration still runs: scope_substate is incremented,
scope_state is incremented exactly when the leftover next_substate is
negative, and EVENT_Probe is dispatched at the current position (with
Exit and Enter possible besides, per the registered bits). -/
theorem claimC2_pop_underflow_amended (trans : TransFn) (m : SM)
    (hc : m.stateChange = State_Change.STATE_POP) (hs : m.stack = []) :
    (performOneStateChange trans m).1.currentState = m.currentState ∧
    (performOneStateChange trans m).1.currentSubstate = m.currentSubstate ∧
    (performOneStateChange trans m).1.stack = [] ∧
    (performOneStateChange trans m).1.scopeSubstate =
      (m.scopeSubstate + 1) % U32 ∧
    (performOneStateChange trans m).1.scopeState =
      (if m.nextSubstate < 0 then (m.scopeState + 1) % U32 else m.scopeState) ∧
    ∃ b, TraceEntry.mk State_Machine_Event.EVENT_Probe (m.currentState : Int)
        m.currentSubstate b ∈ (performOneStateChange trans m).2 := by
  have hL := pscLock_fields m
  have hE := pscExitDispatch_core trans (pscLock m)
  have hEl := pscExitDispatch_locked trans (pscLock m) hL.2.2.2.2.2.2.2.2
  have hc2 : (pscExitDispatch trans (pscLock m)).1.stateChange =
      State_Change.STATE_POP := by
    rw [hEl.1, hL.2.2.2.2.2.1, hc]
  have hs2 : (pscExitDispatch trans (pscLock m)).1.stack = [] := by
    rw [hE.2.2.1, hL.2.2.1, hs]
  have hsw : pscSwitch (pscExitDispatch trans (pscLock m)).1 =
      (pscExitDispatch trans (pscLock m)).1 :=
    pscSwitch_pop_empty _ hc2 hs2
  have hW := pscScopeAndWipe_fields (pscExitDispatch trans (pscLock m)).1
  have hP := pscProbeEnter_core trans
    (pscScopeAndWipe (pscExitDispatch trans (pscLock m)).1)
  have hnext : (pscExitDispatch trans (pscLock m)).1.nextSubstate =
      m.nextSubstate := by
    rw [hEl.2.2, hL.2.2.2.2.2.2.2.1]
  have hscS : (pscExitDispatch trans (pscLock m)).1.scopeState = m.scopeState := by
    rw [hE.2.2.2.1, hL.2.2.2.1]
  have hscSS : (pscExitDispatch trans (pscLock m)).1.scopeSubstate =
      m.scopeSubstate := by
    rw [hE.2.2.2.2.1, hL.2.2.2.2.1]
  have hcur : (pscExitDispatch trans (pscLock m)).1.currentState =
      m.currentState := by
    rw [hE.1, hL.1]
  have hcsub : (pscExitDispatch trans (pscLock m)).1.currentSubstate =
      m.currentSubstate := by
    rw [hE.2.1, hL.2.1]
  refine ⟨?_, ?_, ?_, ?_, ?_, ?_⟩
  · show (pscProbeEnter trans (pscScopeAndWipe
      (pscSwitch (pscExitDispatch trans (pscLock m)).1))).1.currentState = _
    rw [hsw, hP.1, hW.1, hcur]
  · show (pscProbeEnter trans (pscScopeAndWipe
      (pscSwitch (pscExitDispatch trans (pscLock m)).1))).1.currentSubstate = _
    rw [hsw, hP.2.1, hW.2.1, hcsub]
  · show (pscProbeEnter trans (pscScopeAndWipe
      (pscSwitch (pscExitDispatch trans (pscLock m)).1))).1.stack = _
    rw [hsw, hP.2.2.1, hW.2.2.1, hs2]
  · show (pscProbeEnter trans (pscScopeAndWipe
      (pscSwitch (pscExitDispatch trans (pscLock m)).1))).1.scopeSubstate = _
    rw [hsw, hP.2.2.2.2, hW.2.2.2.1, hscSS]
  · show (pscProbeEnter trans (pscScopeAndWipe
      (pscSwitch (pscExitDispatch trans (pscLock m)).1))).1.scopeState = _
    rw [hsw, hP.2.2.2.1, hW.2.2.2.2.1, hnext, hscS]
  · obtain ⟨b, rest, hb⟩ := pscProbeEnter_trace trans
      (pscScopeAndWipe (pscExitDispatch trans (pscLock m)).1)
    have hcW : (pscScopeAndWipe
        (pscExitDispatch trans (pscLock m)).1).currentState = m.currentState := by
      rw [hW.1, hcur]
    have hcsW : (pscScopeAndWipe
        (pscExitDispatch trans (pscLock m)).1).currentSubstate =
        m.currentSubstate := by
      rw [hW.2.1, hcsub]
    refine ⟨b, ?_⟩
    show _ ∈ (pscExitDispatch trans (pscLock m)).2 ++
      (pscProbeEnter trans (pscScopeAndWipe
        (pscSwitch (pscExitDispatch trans (pscLock m)).1))).2
    rw [hsw, hb, hcW, hcsW]
    exact List.mem_append_right _ (List.mem_cons_self _ _)

/-- Witness for the amended C2 at a concrete machine with scope_substate 7
and a pending pop on the empty stack. -/
theorem claimC2_pop_underflow_amended_witness :
    (performOneStateChange transNone
      ({ stateChange := State_Change.STATE_POP, scopeSubstate := 7 } : SM)).1.currentState = 0 ∧
    (performOneStateChange transNone
      ({ stateChange := State_Change.STATE_POP, scopeSubstate := 7 } : SM)).1.currentSubstate = -1 ∧
    (performOneStateChange transNone
      ({ stateChange := State_Change.STATE_POP, scopeSubstate := 7 } : SM)).1.stack = [] ∧
    (performOneStateChange transNone
      ({ stateChange := State_Change.STATE_POP, scopeSubstate := 7 } : SM)).1.scopeSubstate = 8 ∧
    (performOneStateChange transNone
      ({ stateChange := State_Change.STATE_POP, scopeSubstate := 7 } : SM)).1.scopeState = 0 ∧
    ∃ b, TraceEntry.mk State_Machine_Event.EVENT_Probe 0 (-1) b ∈
      (performOneStateChange transNone
        ({ stateChange := State_Change.STATE_POP, scopeSubstate := 7 } : SM)).2 := by
  have h := claimC2_pop_underflow_amended transNone
    ({ stateChange := State_Change.STATE_POP, scopeSubstate := 7 } : SM) rfl rfl
  simpa [U32] using h

/-- C3: evaluation of the SetTimerState body as written: the router call
it emits carries rule SCOPE_TO_SUBSTATE with captured scope value 9 (the
machine's scope_substate), not the state rule with scope_state 5, and the
whole function coincides with SetTimerSubstate - the copy-paste slip the
code's own header comment (valid as long as the state does not change)
contradicts. -/
theorem claimC3_setTimerState_eval :
    (setTimerState 1 42 ({ scopeState := 5, scopeSubstate := 9 } : SM)).map
      (fun c => (c.rule, c.scope)) =
      [(Scope_Rule.SCOPE_TO_SUBSTATE, 9)] ∧
    setTimerState 1 42 ({ scopeState := 5, scopeSubstate := 9 } : SM) =
      setTimerSubstate 1 42 ({ scopeState := 5, scopeSubstate := 9 } : SM) := by
  constructor
  · simp [setTimerState, sendMsgDelayedToMeHelper]
  · rfl

/-- C4 counterexample: with a pop already pending and changes allowed, a
subsequent ChangeState is not rejected - it overwrites the pending
request kind and target, so the previously requested change is lost. -/
theorem claimC4_pending_overwrite_counterexample :
    (popState ({} : SM)).stateChange = State_Change.STATE_POP ∧
    (changeState 7 (popState ({} : SM))).stateChange =
      State_Change.STATE_CHANGE ∧
    (changeState 7 (popState ({} : SM))).nextState = 7 := by
  decide

/-- C4 as amended: ChangeState, ChangeSubstate and PopState never consult
the pending request - they are no-ops exactly when requests are locked
out (stateChangeAllowed = false, the Exit phase) and otherwise overwrite
whatever is pending, in release builds as in debug. -/
theorem claimC4_pending_overwrite_amended (m : SM) (ns k : Nat) :
    (m.stateChangeAllowed = false →
      changeState ns m = m ∧ changeSubstate k m = m ∧ popState m = m) ∧
    (m.stateChangeAllowed = true →
      (changeState ns m).stateChange = State_Change.STATE_CHANGE ∧
      (changeState ns m).nextState = ns ∧
      (changeState ns m).nextSubstate = -1 ∧
      (changeSubstate k m).stateChange = State_Change.STATE_CHANGE ∧
      (changeSubstate k m).nextState = m.currentState ∧
      (changeSubstate k m).nextSubstate = (k : Int) ∧
      (popState m).stateChange = State_Change.STATE_POP) := by
  constructor <;> intro h <;>
    simp [changeState, changeSubstate, popState, h]

/-- Witness for the amended C4: the locked no-op and the overwriting
write, each at a concrete machine. -/
theorem claimC4_pending_overwrite_amended_witness :
    changeState 3 ({ stateChangeAllowed := false } : SM) =
      ({ stateChangeAllowed := false } : SM) ∧
    (changeState 3 ({} : SM)).nextState = 3 := by
  have h1 := claimC4_pending_overwrite_amended
    ({ stateChangeAllowed := false } : SM) 3 0
  have h2 := claimC4_pending_overwrite_amended ({} : SM) 3 0
  exact ⟨(h1.1 rfl).1, (h2.2 rfl).2.1⟩

/-- C5 counterexample: a state change to 3, then a substate change to 2,
then a pop. The pop is applied with the non-empty stack [0] and replaces
current_state while clearing the substate, yet because the leftover
next_substate is 2 the scope_state counter stays at 1 and the state
variable declared before the pop survives - refuting the claim that
every applied pop bumps scope_state and wipes the state scope. -/
theorem claimC5_pop_scope_counterexample :
    (popState (declareVariable 0 StateVariableScope.STATE_VARIABLE_SCOPE
        (performStateChanges transNone (changeSubstate 2
          (performStateChanges transNone
            (changeState 3 ({} : SM))).1)).1)).stateChange =
      State_Change.STATE_POP ∧
    (popState (declareVariable 0 StateVariableScope.STATE_VARIABLE_SCOPE
        (performStateChanges transNone (changeSubstate 2
          (performStateChanges transNone
            (changeState 3 ({} : SM))).1)).1)).stack = [0] ∧
    (popState (declareVariable 0 StateVariableScope.STATE_VARIABLE_SCOPE
        (performStateChanges transNone (changeSubstate 2
          (performStateChanges transNone
            (changeState 3 ({} : SM))).1)).1)).scopeState = 1 ∧
    (performStateChanges transNone
      (popState (declareVariable 0 StateVariableScope.STATE_VARIABLE_SCOPE
        (performStateChanges transNone (changeSubstate 2
          (performStateChanges transNone
            (changeState 3 ({} : SM))).1)).1))).1.currentState = 0 ∧
    (performStateChanges transNone
      (popState (declareVariable 0 StateVariableScope.STATE_VARIABLE_SCOPE
        (performStateChanges transNone (changeSubstate 2
          (performStateChanges transNone
            (changeState 3 ({} : SM))).1)).1))).1.stack = [] ∧
    (performStateChanges transNone
      (popState (declareVariable 0 StateVariableScope.STATE_VARIABLE_SCOPE
        (performStateChanges transNone (changeSubstate 2
          (performStateChanges transNone
            (changeState 3 ({} : SM))).1)).1))).1.scopeState = 1 ∧
    (performStateChanges transNone
      (popState (declareVariable 0 StateVariableScope.STATE_VARIABLE_SCOPE
        (performStateChanges transNone (changeSubstate 2
          (performStateChanges transNone
            (changeState 3 ({} : SM))).1)).1))).1.stateVariables.length = 1 := by
  decide

/-- C5 as amended: a pop applied with a non-empty stack restores the
stack top as the current state and clears the substate, but it bumps
scope_state (and, via the same test, wipes the state-variable scope) only
when the leftover next_substate is negative - that is, only when the most
recent change request was itself state-level; after a substate-level
request a pop increments scope_substate alone. -/
theorem claimC5_pop_scope_amended (trans : TransFn) (m : SM) (top : Nat)
    (hc : m.stateChange = State_Change.STATE_POP)
    (hs : m.stack.getLast? = some top) :
    (performOneStateChange trans m).1.currentState = top ∧
    (performOneStateChange trans m).1.currentSubstate = -1 ∧
    (performOneStateChange trans m).1.stack = m.stack.dropLast ∧
    (performOneStateChange trans m).1.scopeSubstate =
      (m.scopeSubstate + 1) % U32 ∧
    (performOneStateChange trans m).1.scopeState =
      (if m.nextSubstate < 0 then (m.scopeState + 1) % U32 else m.scopeState) := by
  have hL := pscLock_fields m
  have hE := pscExitDispatch_core trans (pscLock m)
  have hEl := pscExitDispatch_locked trans (pscLock m) hL.2.2.2.2.2.2.2.2
  have hc2 : (pscExitDispatch trans (pscLock m)).1.stateChange =
      State_Change.STATE_POP := by
    rw [hEl.1, hL.2.2.2.2.2.1, hc]
  have hstk : (pscExitDispatch trans (pscLock m)).1.stack = m.stack := by
    rw [hE.2.2.1, hL.2.2.1]
  have hs2 : (pscExitDispatch trans (pscLock m)).1.stack.getLast? = some top := by
    rw [hstk, hs]
  have hsw := pscSwitch_pop_some (pscExitDispatch trans (pscLock m)).1 top hc2 hs2
  have hswf := pscSwitch_fields (pscExitDispatch trans (pscLock m)).1
  have hW := pscScopeAndWipe_fields
    (pscSwitch (pscExitDispatch trans (pscLock m)).1)
  have hP := pscProbeEnter_core trans
    (pscScopeAndWipe (pscSwitch (pscExitDispatch trans (pscLock m)).1))
  have hnext : (pscExitDispatch trans (pscLock m)).1.nextSubstate =
      m.nextSubstate := by
    rw [hEl.2.2, hL.2.2.2.2.2.2.2.1]
  have hscS : (pscExitDispatch trans (pscLock m)).1.scopeState = m.scopeState := by
    rw [hE.2.2.2.1, hL.2.2.2.1]
  have hscSS : (pscExitDispatch trans (pscLock m)).1.scopeSubstate =
      m.scopeSubstate := by
    rw [hE.2.2.2.2.1, hL.2.2.2.2.1]
  refine ⟨?_, ?_, ?_, ?_, ?_⟩
  · show (pscProbeEnter trans (pscScopeAndWipe
      (pscSwitch (pscExitDispatch trans (pscLock m)).1))).1.currentState = _
    rw [hP.1, hW.1, hsw]
  · show (pscProbeEnter trans (pscScopeAndWipe
      (pscSwitch (pscExitDispatch trans (pscLock m)).1))).1.currentSubstate = _
    rw [hP.2.1, hW.2.1, hsw]
  · show (pscProbeEnter trans (pscScopeAndWipe
      (pscSwitch (pscExitDispatch trans (pscLock m)).1))).1.stack = _
    rw [hP.2.2.1, hW.2.2.1, hsw]
    dsimp only
    rw [hstk]
  · show (pscProbeEnter trans (pscScopeAndWipe
      (pscSwitch (pscExitDispatch trans (pscLock m)).1))).1.scopeSubstate = _
    rw [hP.2.2.2.2, hW.2.2.2.1, hswf.2.1, hscSS]
  · show (pscProbeEnter trans (pscScopeAndWipe
      (pscSwitch (pscExitDispatch trans (pscLock m)).1))).1.scopeState = _
    rw [hP.2.2.2.1, hW.2.2.2.2.1, hswf.2.2.2.1, hswf.1, hnext, hscS]

/-- Witness for the amended C5 at a concrete machine whose leftover
next_substate is 2: the pop restores state 4 from the stack and
scope_state stays at 6. -/
theorem claimC5_pop_scope_amended_witness :
    (performOneStateChange transNone
      ({ stateChange := State_Change.STATE_POP, stack := [4],
         nextSubstate := 2, scopeState := 6, scopeSubstate := 1 } : SM)).1.currentState = 4 ∧
    (performOneStateChange transNone
      ({ stateChange := State_Change.STATE_POP, stack := [4],
         nextSubstate := 2, scopeState := 6, scopeSubstate := 1 } : SM)).1.currentSubstate = -1 ∧
    (performOneStateChange transNone
      ({ stateChange := State_Change.STATE_POP, stack := [4],
         nextSubstate := 2, scopeState := 6, scopeSubstate := 1 } : SM)).1.stack = [] ∧
    (performOneStateChange transNone
      ({ stateChange := State_Change.STATE_POP, stack := [4],
         nextSubstate := 2, scopeState := 6, scopeSubstate := 1 } : SM)).1.scopeSubstate = 2 ∧
    (performOneStateChange transNone
      ({ stateChange := State_Change.STATE_POP, stack := [4],
         nextSubstate := 2, scopeState := 6, scopeSubstate := 1 } : SM)).1.scopeState = 6 := by
  have h := claimC5_pop_scope_amended transNone
    ({ stateChange := State_Change.STATE_POP, stack := [4],
       nextSubstate := 2, scopeState := 6, scopeSubstate := 1 } : SM) 4 rfl rfl
  simpa [U32] using h

/-- The Update dispatch ladder cannot clear a pending state change. -/
theorem updateDispatch_stateChange_ne (trans : TransFn) (m0 : SM)
    (h : m0.stateChange ≠ State_Change.NO_STATE_CHANGE) :
    (updateDispatch trans m0).1.stateChange ≠
      State_Change.NO_STATE_CHANGE := by
  unfold updateDispatch
  dsimp only
  repeat' split
  all_goals
    first
    | exact h
    | exact applyCalls_stateChange_ne _ _ h
    | exact applyCalls_stateChange_ne _ _ (applyCalls_stateChange_ne _ _ h)
    | exact applyCalls_stateChange_ne _ _
        (applyCalls_stateChange_ne _ _ (applyCalls_stateChange_ne _ _ h))

/-- With a pending change and at least one iteration of fuel, the
PerformStateChanges loop dispatches a Probe. -/
theorem performStateChangesAux_probe (trans : TransFn) (fuel : Nat) (m : SM)
    (h : m.stateChange ≠ State_Change.NO_STATE_CHANGE) :
    ∃ qs qss b, TraceEntry.mk State_Machine_Event.EVENT_Probe qs qss b ∈
      (performStateChangesAux trans (fuel + 1) m).2 := by
  obtain ⟨qs, qss, b, hb⟩ := performOneStateChange_probe trans m
  refine ⟨qs, qss, b, ?_⟩
  show _ ∈ (performStateChangesAux trans (Nat.succ fuel) m).2
  unfold performStateChangesAux
  rw [if_pos h]
  exact List.mem_append_left _ hb

/-- C6 counterexample: a machine with a pending state change to 5 but no
registered Update handler at any level. Update on it (owner not marked
for deletion) does nothing at all - the machine is returned unchanged,
no transition-function call is made and the pending change survives -
whereas PerformStateChanges, had it been invoked, would have applied the
change. This refutes the claim that Update invokes PerformStateChanges
regardless of registered_events. -/
theorem claimC6_update_gate_counterexample :
    (update transNone false
      ({ stateChange := State_Change.STATE_CHANGE, nextState := 5,
         nextSubstate := -1 } : SM)).1 =
      ({ stateChange := State_Change.STATE_CHANGE, nextState := 5,
         nextSubstate := -1 } : SM) ∧
    (update transNone false
      ({ stateChange := State_Change.STATE_CHANGE, nextState := 5,
         nextSubstate := -1 } : SM)).2 = [] ∧
    (performStateChanges transNone
      ({ stateChange := State_Change.STATE_CHANGE, nextState := 5,
         nextSubstate := -1 } : SM)).1.stateChange =
      State_Change.NO_STATE_CHANGE ∧
    (performStateChanges transNone
      ({ stateChange := State_Change.STATE_CHANGE, nextState := 5,
         nextSubstate := -1 } : SM)).1.currentState = 5 := by
  refine ⟨rfl, rfl, ?_, ?_⟩ <;> decide

/-- C6 as amended: when the owner is not marked for deletion and at least
one Update bit is registered, Update does run PerformStateChanges after
the dispatch - whatever the handlers return - so a pending change is
applied then, witnessed by the Probe dispatch of the applied change; with
no Update bit registered, Update is a complete no-op and the pending
change waits. -/
theorem claimC6_update_applies_pending_amended (trans : TransFn) (m : SM)
    (hreg : m.registeredEvents.anyUpdateBit = true)
    (hpend : m.stateChange ≠ State_Change.NO_STATE_CHANGE) :
    ∃ qs qss b, TraceEntry.mk State_Machine_Event.EVENT_Probe qs qss b ∈
      (update trans false m).2 := by
  unfold update
  rw [if_pos ⟨hreg, by simp⟩]
  dsimp only
  have hne := updateDispatch_stateChange_ne trans
    { m with updateIteration := (m.updateIteration + 1) % U32 } hpend
  obtain ⟨qs, qss, b, hb⟩ := performStateChangesAux_probe trans 19 _ hne
  exact ⟨qs, qss, b, List.mem_append_right _ hb⟩

/-- Witness for the amended C6: a machine with a registered global Update
bit and a pending change; Update dispatches the Probe of the applied
change. -/
theorem claimC6_update_applies_pending_amended_witness :
    ∃ qs qss b, TraceEntry.mk State_Machine_Event.EVENT_Probe qs qss b ∈
      (update transNone false
        ({ registeredEvents := { updateStateMachineBit := true },
           stateChange := State_Change.STATE_CHANGE, nextState := 1,
           nextSubstate := -1 } : SM)).2 :=
  claimC6_update_applies_pending_amended transNone
    ({ registeredEvents := { updateStateMachineBit := true },
       stateChange := State_Change.STATE_CHANGE, nextState := 1,
       nextSubstate := -1 } : SM) rfl (by decide)

/-- C8 counterexample: with a RESET already pending on queue 0, a second
RequestStateMachineChange is not dropped in release - it overwrites the
pending change kind and the pending new-machine pointer. -/
theorem claimC8_second_request_counterexample :
    (requestStateMachineChange 7 StateMachineChange.STATE_MACHINE_REPLACE
      (⟨0, by decide⟩ : Fin STATE_MACHINE_NUM_QUEUES)
      (requestStateMachineChange 0 StateMachineChange.STATE_MACHINE_RESET
        (⟨0, by decide⟩ : Fin STATE_MACHINE_NUM_QUEUES)
        ({} : StateMachineManager))).stateMachineChange
      (⟨0, by decide⟩ : Fin STATE_MACHINE_NUM_QUEUES) =
      StateMachineChange.STATE_MACHINE_REPLACE ∧
    (requestStateMachineChange 7 StateMachineChange.STATE_MACHINE_REPLACE
      (⟨0, by decide⟩ : Fin STATE_MACHINE_NUM_QUEUES)
      (requestStateMachineChange 0 StateMachineChange.STATE_MACHINE_RESET
        (⟨0, by decide⟩ : Fin STATE_MACHINE_NUM_QUEUES)
        ({} : StateMachineManager))).newStateMachine
      (⟨0, by decide⟩ : Fin STATE_MACHINE_NUM_QUEUES) = 7 := by
  constructor <;> simp [requestStateMachineChange, Function.update]

/-- C8 as amended: RequestStateMachineChange never consults the pending
slot - in release a second request for the same queue overwrites the
pending change kind and new-machine pointer (debug asserts), while other
queues are untouched. -/
theorem claimC8_second_request_amended (mgr : StateMachineManager)
    (mch : Nat) (change : StateMachineChange)
    (q q2 : Fin STATE_MACHINE_NUM_QUEUES)
    (hne : q2 ≠ q) :
    (requestStateMachineChange mch change q mgr).stateMachineChange q =
      change ∧
    (requestStateMachineChange mch change q mgr).newStateMachine q = mch ∧
    (requestStateMachineChange mch change q mgr).stateMachineChange q2 =
      mgr.stateMachineChange q2 ∧
    (requestStateMachineChange mch change q mgr).newStateMachine q2 =
      mgr.newStateMachine q2 := by
  refine ⟨?_, ?_, ?_, ?_⟩ <;>
    simp [requestStateMachineChange, Function.update, hne]

/-- Witness for the amended C8 at queue 0 and untouched queue 1. -/
theorem claimC8_second_request_amended_witness :
    (requestStateMachineChange 7 StateMachineChange.STATE_MACHINE_REPLACE
      (⟨0, by decide⟩ : Fin STATE_MACHINE_NUM_QUEUES)
      ({} : StateMachineManager)).stateMachineChange
      (⟨0, by decide⟩ : Fin STATE_MACHINE_NUM_QUEUES) =
      StateMachineChange.STATE_MACHINE_REPLACE ∧
    (requestStateMachineChange 7 StateMachineChange.STATE_MACHINE_REPLACE
      (⟨0, by decide⟩ : Fin STATE_MACHINE_NUM_QUEUES)
      ({} : StateMachineManager)).newStateMachine
      (⟨0, by decide⟩ : Fin STATE_MACHINE_NUM_QUEUES) = 7 ∧
    (requestStateMachineChange 7 StateMachineChange.STATE_MACHINE_REPLACE
      (⟨0, by decide⟩ : Fin STATE_MACHINE_NUM_QUEUES)
      ({} : StateMachineManager)).stateMachineChange
      (⟨1, by decide⟩ : Fin STATE_MACHINE_NUM_QUEUES) =
      StateMachineChange.NO_STATE_MACHINE_CHANGE := by
  have h := claimC8_second_request_amended ({} : StateMachineManager) 7
    StateMachineChange.STATE_MACHINE_REPLACE
    (⟨0, by decide⟩ : Fin STATE_MACHINE_NUM_QUEUES)
    (⟨1, by decide⟩ : Fin STATE_MACHINE_NUM_QUEUES) (by decide)
  exact ⟨h.1, h.2.1, h.2.2.1⟩

/-- C9 counterexample: on a machine with no declared state variables,
DeclareVariable with id 1 appends a single slot, so the vector has length
1 and index 1 is still out of range - an immediately following Set of id
1 is not within range, refuting the claim that the vector grows to size
id + 1 for every non-negative id. -/
theorem claimC9_declare_growth_counterexample :
    (declareVariable 1 StateVariableScope.STATE_VARIABLE_SCOPE
      ({} : SM)).stateVariables.length = 1 ∧
    setStateVariableInt 0 1 StateVariableScope.STATE_VARIABLE_SCOPE
      (declareVariable 1 StateVariableScope.STATE_VARIABLE_SCOPE
        ({} : SM)) = none := by
  decide

/-- C9 as amended: DeclareVariable appends at most one slot per call, so
the slot at index id exists afterwards exactly when the vector already
reached index id - 1; for every non-negative id at most one past the
current size (ids declared consecutively from 0), the vector covers id
after the call and an immediately following Set of that id in that scope
is within range. -/
theorem claimC9_declare_growth_amended (m : SM) (id : Int)
    (sc : StateVariableScope) (h0 : 0 ≤ id)
    (hle : id ≤ ((varsOf sc m).length : Int)) :
    id + 1 ≤ ((varsOf sc (declareVariable id sc m)).length : Int) ∧
    (setStateVariableInt 0 id sc (declareVariable id sc m)).isSome = true := by
  cases sc
  case STATE_VARIABLE_SCOPE =>
    simp only [varsOf] at hle ⊢
    by_cases hgrow : ((m.stateVariables.length : Int) ≤ id)
    · have hd : declareVariable id StateVariableScope.STATE_VARIABLE_SCOPE m =
          { m with stateVariables := m.stateVariables ++ [newPersistentData] } := by
        unfold declareVariable
        rw [if_pos ⟨rfl, hgrow⟩]
      rw [hd]
      constructor
      · simp only [List.length_append, List.length_cons, List.length_nil]
        push_cast
        omega
      · unfold setStateVariableInt
        dsimp only
        rw [if_pos ⟨h0, by
          simp only [List.length_append, List.length_cons, List.length_nil]
          push_cast
          omega⟩]
        rfl
    · have hd : declareVariable id StateVariableScope.STATE_VARIABLE_SCOPE m = m := by
        unfold declareVariable
        rw [if_neg (by exact fun hx => hgrow hx.2)]
        rw [if_neg (by rintro ⟨hx, -⟩; exact StateVariableScope.noConfusion hx)]
      rw [hd]
      constructor
      · omega
      · unfold setStateVariableInt
        dsimp only
        rw [if_pos ⟨h0, by omega⟩]
        rfl
  case SUBSTATE_VARIABLE_SCOPE =>
    simp only [varsOf] at hle ⊢
    by_cases hgrow : ((m.substateVariables.length : Int) ≤ id)
    · have hd : declareVariable id StateVariableScope.SUBSTATE_VARIABLE_SCOPE m =
          { m with substateVariables :=
            m.substateVariables ++ [newPersistentData] } := by
        unfold declareVariable
        rw [if_neg (by rintro ⟨hx, -⟩; exact StateVariableScope.noConfusion hx)]
        rw [if_pos ⟨rfl, hgrow⟩]
      rw [hd]
      constructor
      · simp only [List.length_append, List.length_cons, List.length_nil]
        push_cast
        omega
      · unfold setStateVariableInt
        dsimp only
        rw [if_pos ⟨h0, by
          simp only [List.length_append, List.length_cons, List.length_nil]
          push_cast
          omega⟩]
        rfl
    · have hd : declareVariable id StateVariableScope.SUBSTATE_VARIABLE_SCOPE m = m := by
        unfold declareVariable
        rw [if_neg (by rintro ⟨hx, -⟩; exact StateVariableScope.noConfusion hx)]
        rw [if_neg (by exact fun hx => hgrow hx.2)]
      rw [hd]
      constructor
      · omega
      · unfold setStateVariableInt
        dsimp only
        rw [if_pos ⟨h0, by omega⟩]
        rfl

/-- Witness for the amended C9: declaring id 0 on an empty vector makes
index 0 addressable. -/
theorem claimC9_declare_growth_amended_witness :
    (1 : Int) ≤ ((varsOf StateVariableScope.STATE_VARIABLE_SCOPE
      (declareVariable 0 StateVariableScope.STATE_VARIABLE_SCOPE
        ({} : SM))).length : Int) ∧
    (setStateVariableInt 0 0 StateVariableScope.STATE_VARIABLE_SCOPE
      (declareVariable 0 StateVariableScope.STATE_VARIABLE_SCOPE
        ({} : SM))).isSome = true := by
  have h := claimC9_declare_growth_amended ({} : SM) 0
    StateVariableScope.STATE_VARIABLE_SCOPE (by decide) (by decide)
  simpa using h

/-- The receivers produced by a broadcast-to-list send are exactly the
non-owner entries of the list, in order and with multiplicity. -/
theorem broadcastReceivers_aux (l : List Nat) (owner : Nat)
    (f : Nat → RouterCall) (hf : ∀ id, (f id).receiver = id) :
    ((l.filterMap fun id => if id ≠ owner then some (f id) else none).map
      RouterCall.receiver) = l.filter (fun id => id != owner) := by
  induction l with
  | nil => rfl
  | cons a l ih =>
    by_cases ha : a = owner
    · have h1 : (if a ≠ owner then some (f a) else none) = none := by simp [ha]
      simp only [List.filterMap_cons, h1, List.filter_cons]
      rw [if_neg (by simp [ha])]
      exact ih
    · have h1 : (if a ≠ owner then some (f a) else none) = some (f a) := by
        simp [ha]
      simp only [List.filterMap_cons, h1, List.filter_cons]
      rw [if_pos (by simp [ha])]
      simp only [List.map_cons, hf]
      rw [ih]

/-- C10: SendMsgBroadcastToList and SendMsgBroadcastToListNow schedule
exactly one message per broadcast-list entry whose id differs from the
owner, and skip entries equal to the owner: the receiver list of the
emitted router calls equals the broadcast list filtered by "not the
owner". -/
theorem claimC10_broadcast_excludes_self (name : Nat) (d : ℚ) (m : SM) :
    (sendMsgBroadcastToList name d m).map RouterCall.receiver =
      m.broadcastList.filter (fun id => id != m.ownerId) ∧
    (sendMsgBroadcastToListNow name d m).map RouterCall.receiver =
      m.broadcastList.filter (fun id => id != m.ownerId) := by
  constructor <;> exact broadcastReceivers_aux _ _ _ (fun id => rfl)

end SRStateMachine
